import Mathlib

/-!
Verification of the check-run aggregator (`main.go`) against its
specification.  The repository ships two variants of the handler: one
that identifies the observed application by display name and renders
markdown links to each check's details page (namespace `V1` below), and
one that identifies it by numeric app ID and renders name-only bullets
(namespace `V2`).  Both share the same classification switch, the same
overall status/conclusion derivation and the same title rendering.
-/

set_option maxHeartbeats 1000000

namespace Checksummarizer

/-- A check run record as returned by the check-run listing API: the
fields of `github.CheckRun` that `handleCheckRunEvent` reads via
`GetName`, `GetStatus`, `GetConclusion`, `GetDetailsURL`. -/
structure CheckRun where
  name : String
  status : String
  conclusion : String
  detailsURL : String
deriving DecidableEq, Repr

/-- The three buckets the classification loop appends to. -/
inductive Bucket where
  | success
  | failure
  | inProgress
deriving DecidableEq, Repr

/-- The per-record classification switch inside the `for` loop of
`handleCheckRunEvent` (identical in both variants): a Go `switch` is a
sequence of equality tests, rendered here as nested conditionals. -/
def classify (status conclusion : String) : Bucket :=
  if status = "completed" then
    if conclusion = "failure" ∨ conclusion = "cancelled" ∨ conclusion = "stale" ∨ conclusion = "timed_out" then
      Bucket.failure
    else if conclusion = "action_required" then
      Bucket.inProgress
    else
      Bucket.success
  else
    Bucket.inProgress

/-- The overall status/conclusion derivation shared by both variants:
`conclusionStr` stays the empty string in the in-progress branch, and
the `conclusion` pointer is nil exactly when `conclusionStr` is empty
(see `conclusionPtr`). -/
def deriveOverall {α β : Type} (failure : List α) (inProgress : List β) : String × String :=
  if failure.length > 0 then ("completed", "failure")
  else if inProgress.length > 0 then ("in_progress", "")
  else ("completed", "success")

/-- `var conclusion *string; if conclusionStr != "" { conclusion = &conclusionStr }`. -/
def conclusionPtr (conclusionStr : String) : Option String :=
  if conclusionStr = "" then none else some conclusionStr

/-- The title fragments, shared by both variants: one fragment per
non-empty bucket, in the fixed order success, failure, in-progress. -/
def titleParts {α : Type} (success failure inProgress : List α) : List String :=
  (if success.length > 0 then [toString success.length ++ " successful"] else []) ++
  (if failure.length > 0 then [toString failure.length ++ " failed"] else []) ++
  (if inProgress.length > 0 then [toString inProgress.length ++ " in progress"] else [])

/-- `title := strings.Join(titleParts, ", ")`. -/
def title {α : Type} (success failure inProgress : List α) : String :=
  String.intercalate ", " (titleParts success failure inProgress)

/-- The `app` object attached to a check run: ID and display name. -/
structure App where
  id : Int
  name : String
deriving DecidableEq, Repr

/-- The parts of a `github.CheckRunEvent` the handler reads. -/
structure CheckRunEvent where
  app : App
  checkRunID : Int
  name : String
  status : String
  conclusion : String
  headSHA : String
  owner : String
  repoName : String
deriving DecidableEq, Repr

/-- Model of the `ListCheckRunsForRef` call's outcome: a transport
error (when `err` is some message), an HTTP status code, and the
returned check runs. -/
structure ListCheckRunsResponse where
  err : Option String
  statusCode : Nat
  checkRuns : List CheckRun
deriving DecidableEq, Repr

/-- Model of the `CreateCheckRun` call's outcome. -/
structure CreateCheckRunResponse where
  err : Option String
  statusCode : Nat
deriving DecidableEq, Repr

/-- The `github.CreateCheckRunOptions` value the publish step sends. -/
structure CreateCheckRunOptions where
  name : String
  headSHA : String
  status : String
  conclusion : Option String
  outputTitle : String
  outputSummary : String
deriving DecidableEq, Repr

/-- One outbound API call made by the handler, in issue order. -/
inductive ApiCall where
  | listCheckRunsForRef (owner repoName commitSHA : String) (appID : Int)
  | createCheckRun (owner repoName : String) (opts : CreateCheckRunOptions)
deriving DecidableEq, Repr

/-- `true` exactly on create-check-run calls. -/
def ApiCall.isCreate : ApiCall → Bool
  | ApiCall.createCheckRun _ _ _ => true
  | _ => false

/-- `true` exactly on listing calls. -/
def ApiCall.isList : ApiCall → Bool
  | ApiCall.listCheckRunsForRef _ _ _ _ => true
  | _ => false

/-- What one invocation of the handler did: the error it returned
(`none` meaning the nil error) and the API calls it issued, in order. -/
structure HandlerTrace where
  result : Option String
  calls : List ApiCall
deriving DecidableEq, Repr

namespace V1

/-- The `check` struct kept per record in the first variant. -/
structure Check where
  name : String
  detailsURL : String
deriving DecidableEq, Repr

/-- One iteration of the classification loop: build the `check` value
and append it to the bucket the switch selects. -/
def step (acc : List Check × List Check × List Check) (checkRun : CheckRun) :
    List Check × List Check × List Check :=
  let check : Check := ⟨checkRun.name, checkRun.detailsURL⟩
  match classify checkRun.status checkRun.conclusion with
  | Bucket.success => (acc.1 ++ [check], acc.2.1, acc.2.2)
  | Bucket.failure => (acc.1, acc.2.1 ++ [check], acc.2.2)
  | Bucket.inProgress => (acc.1, acc.2.1, acc.2.2 ++ [check])

/-- The whole classification loop over `result.CheckRuns`, starting
from three empty buckets. -/
def classifyAll (checkRuns : List CheckRun) : List Check × List Check × List Check :=
  checkRuns.foldl step ([], [], [])

/-- The `appendChecks` closure: a section header, one bullet line per
record (markdown link to the details URL), then an empty part. -/
def appendChecks (name : String) (collection : List Check) : List String :=
  ("## " ++ name ++ ":") ::
    (collection.map (fun check => "- [" ++ check.name ++ "](" ++ check.detailsURL ++ ");") ++ [""])

/-- The summary parts accumulated by the three `if len(...) > 0` blocks. -/
def summaryParts (success failure inProgress : List Check) : List String :=
  (if success.length > 0 then appendChecks "Successful checks" success else []) ++
  (if failure.length > 0 then appendChecks "Failed checks" failure else []) ++
  (if inProgress.length > 0 then appendChecks "Checks in progress" inProgress else [])

/-- `summary := strings.Join(summaryParts, "\n")`. -/
def summary (success failure inProgress : List Check) : String :=
  String.intercalate "\n" (summaryParts success failure inProgress)

/-- The first variant of `handleCheckRunEvent`: filter by app display
name, fetch, classify, derive, render, publish.  The two network calls
are modelled by the supplied responses; the trace records the calls
issued and the returned error. -/
def handleCheckRunEvent (event : CheckRunEvent) (observedAppName : String)
    (listResponse : ListCheckRunsResponse) (createResponse : CreateCheckRunResponse) :
    HandlerTrace :=
  if event.app.name ≠ observedAppName then
    { result := none, calls := [] }
  else if event.conclusion = "" then
    { result := none, calls := [] }
  else
    let appID := event.app.id
    let commitSHA := event.headSHA
    let owner := event.owner
    let repoName := event.repoName
    let listCall := ApiCall.listCheckRunsForRef owner repoName commitSHA appID
    match listResponse.err with
    | some msg =>
      { result := some ("error listing check runs for commit " ++ commitSHA ++ ": " ++ msg),
        calls := [listCall] }
    | none =>
      if listResponse.statusCode ≠ 200 then
        { result := some ("error listing check runs for commit " ++ commitSHA ++ ": " ++
            toString listResponse.statusCode),
          calls := [listCall] }
      else
        let buckets := classifyAll listResponse.checkRuns
        let success := buckets.1
        let failure := buckets.2.1
        let inProgress := buckets.2.2
        let statusConclusion := deriveOverall failure inProgress
        let opts : CreateCheckRunOptions :=
          { name := "Synthetic status for " ++ observedAppName,
            headSHA := commitSHA,
            status := statusConclusion.1,
            conclusion := conclusionPtr statusConclusion.2,
            outputTitle := title success failure inProgress,
            outputSummary := summary success failure inProgress }
        let createCall := ApiCall.createCheckRun owner repoName opts
        match createResponse.err with
        | some msg =>
          { result := some ("error creating check run for commit " ++ commitSHA ++ ": " ++ msg),
            calls := [listCall, createCall] }
        | none =>
          if createResponse.statusCode ≠ 201 then
            { result := some ("error creating check run for commit " ++ commitSHA ++ ": " ++
                toString createResponse.statusCode),
              calls := [listCall, createCall] }
          else
            { result := none, calls := [listCall, createCall] }

end V1

namespace V2

/-- One iteration of the second variant's classification loop: only the
check run's name is kept. -/
def step (acc : List String × List String × List String) (checkRun : CheckRun) :
    List String × List String × List String :=
  match classify checkRun.status checkRun.conclusion with
  | Bucket.success => (acc.1 ++ [checkRun.name], acc.2.1, acc.2.2)
  | Bucket.failure => (acc.1, acc.2.1 ++ [checkRun.name], acc.2.2)
  | Bucket.inProgress => (acc.1, acc.2.1, acc.2.2 ++ [checkRun.name])

/-- The whole classification loop of the second variant. -/
def classifyAll (checkRuns : List CheckRun) : List String × List String × List String :=
  checkRuns.foldl step ([], [], [])

/-- The summary parts of the second variant: name-only bullets, and no
trailing empty part after the in-progress section. -/
def summaryParts (success failure inProgress : List String) : List String :=
  (if success.length > 0 then
    "## Successful checks:" :: (success.map (fun check => "- " ++ check) ++ [""]) else []) ++
  (if failure.length > 0 then
    "## Failed checks:" :: (failure.map (fun check => "- " ++ check) ++ [""]) else []) ++
  (if inProgress.length > 0 then
    "## Checks in progress:" :: inProgress.map (fun check => "- " ++ check) else [])

/-- `summary := strings.Join(summaryParts, "\n")`. -/
def summary (success failure inProgress : List String) : String :=
  String.intercalate "\n" (summaryParts success failure inProgress)

/-- The second variant of `handleCheckRunEvent`: filter by app ID,
publish under the fixed name "Synthetic status". -/
def handleCheckRunEvent (event : CheckRunEvent) (observedAppID : Int)
    (listResponse : ListCheckRunsResponse) (createResponse : CreateCheckRunResponse) :
    HandlerTrace :=
  if event.app.id ≠ observedAppID then
    { result := none, calls := [] }
  else if event.conclusion = "" then
    { result := none, calls := [] }
  else
    let commitSHA := event.headSHA
    let owner := event.owner
    let repoName := event.repoName
    let listCall := ApiCall.listCheckRunsForRef owner repoName commitSHA observedAppID
    match listResponse.err with
    | some msg =>
      { result := some ("error listing check runs for commit " ++ commitSHA ++ ": " ++ msg),
        calls := [listCall] }
    | none =>
      if listResponse.statusCode ≠ 200 then
        { result := some ("error listing check runs for commit " ++ commitSHA ++ ": " ++
            toString listResponse.statusCode),
          calls := [listCall] }
      else
        let buckets := classifyAll listResponse.checkRuns
        let success := buckets.1
        let failure := buckets.2.1
        let inProgress := buckets.2.2
        let statusConclusion := deriveOverall failure inProgress
        let opts : CreateCheckRunOptions :=
          { name := "Synthetic status",
            headSHA := commitSHA,
            status := statusConclusion.1,
            conclusion := conclusionPtr statusConclusion.2,
            outputTitle := title success failure inProgress,
            outputSummary := summary success failure inProgress }
        let createCall := ApiCall.createCheckRun owner repoName opts
        match createResponse.err with
        | some msg =>
          { result := some ("error creating check run for commit " ++ commitSHA ++ ": " ++ msg),
            calls := [listCall, createCall] }
        | none =>
          if createResponse.statusCode ≠ 201 then
            { result := some ("error creating check run for commit " ++ commitSHA ++ ": " ++
                toString createResponse.statusCode),
              calls := [listCall, createCall] }
          else
            { result := none, calls := [listCall, createCall] }

end V2

/-- The records of `checkRuns` that the classification switch sends to
bucket `b`, in ingestion order. -/
def bucketOf (b : Bucket) (checkRuns : List CheckRun) : List CheckRun :=
  checkRuns.filter (fun r => decide (classify r.status r.conclusion = b))

/-- What the first variant's loop keeps of a record. -/
def V1.toCheck (checkRun : CheckRun) : V1.Check :=
  ⟨checkRun.name, checkRun.detailsURL⟩

theorem V1.foldl_step_buckets (checkRuns : List CheckRun) (s f i : List V1.Check) :
    List.foldl V1.step (s, f, i) checkRuns =
      (s ++ (bucketOf Bucket.success checkRuns).map V1.toCheck,
       f ++ (bucketOf Bucket.failure checkRuns).map V1.toCheck,
       i ++ (bucketOf Bucket.inProgress checkRuns).map V1.toCheck) := by
  induction checkRuns generalizing s f i with
  | nil => simp [bucketOf]
  | cons r rs ih =>
    simp only [List.foldl_cons, bucketOf, List.filter_cons]
    rcases h : classify r.status r.conclusion with _ | _ | _ <;>
      simp [V1.step, h, ih, bucketOf, V1.toCheck]

theorem V1.classifyAll_buckets (checkRuns : List CheckRun) :
    V1.classifyAll checkRuns =
      ((bucketOf Bucket.success checkRuns).map V1.toCheck,
       (bucketOf Bucket.failure checkRuns).map V1.toCheck,
       (bucketOf Bucket.inProgress checkRuns).map V1.toCheck) := by
  simpa using V1.foldl_step_buckets checkRuns [] [] []

theorem V2.foldl_step_names (checkRuns : List CheckRun) (s f i : List String) :
    List.foldl V2.step (s, f, i) checkRuns =
      (s ++ (bucketOf Bucket.success checkRuns).map CheckRun.name,
       f ++ (bucketOf Bucket.failure checkRuns).map CheckRun.name,
       i ++ (bucketOf Bucket.inProgress checkRuns).map CheckRun.name) := by
  induction checkRuns generalizing s f i with
  | nil => simp [bucketOf]
  | cons r rs ih =>
    simp only [List.foldl_cons, bucketOf, List.filter_cons]
    rcases h : classify r.status r.conclusion with _ | _ | _ <;>
      simp [V2.step, h, ih, bucketOf]

theorem V2.classifyAll_names (checkRuns : List CheckRun) :
    V2.classifyAll checkRuns =
      ((bucketOf Bucket.success checkRuns).map CheckRun.name,
       (bucketOf Bucket.failure checkRuns).map CheckRun.name,
       (bucketOf Bucket.inProgress checkRuns).map CheckRun.name) := by
  simpa using V2.foldl_step_names checkRuns [] [] []

theorem bucketOf_length_sum (checkRuns : List CheckRun) :
    (bucketOf Bucket.success checkRuns).length + (bucketOf Bucket.failure checkRuns).length +
      (bucketOf Bucket.inProgress checkRuns).length = checkRuns.length := by
  induction checkRuns with
  | nil => simp [bucketOf]
  | cons r rs ih =>
    simp only [bucketOf, List.filter_cons] at ih ⊢
    rcases h : classify r.status r.conclusion with _ | _ | _ <;> simp [h] <;> omega

/-- C1: a record whose status is not "completed" is classified as
in-progress; a completed record concluding "failure", "cancelled",
"stale" or "timed_out" as failure; a completed "action_required" as
in-progress; and every other completed record as success. -/
theorem classify_decision_table (status conclusion : String) :
    (status ≠ "completed" → classify status conclusion = Bucket.inProgress) ∧
    (status = "completed" →
      ((conclusion = "failure" ∨ conclusion = "cancelled" ∨ conclusion = "stale" ∨
          conclusion = "timed_out") → classify status conclusion = Bucket.failure) ∧
      (conclusion = "action_required" → classify status conclusion = Bucket.inProgress) ∧
      (conclusion ≠ "failure" → conclusion ≠ "cancelled" → conclusion ≠ "stale" →
        conclusion ≠ "timed_out" → conclusion ≠ "action_required" →
        classify status conclusion = Bucket.success)) := by
  refine ⟨fun h => ?_, fun h => ⟨fun hc => ?_, fun hc => ?_, fun h1 h2 h3 h4 h5 => ?_⟩⟩ <;>
    simp_all [classify]

theorem classify_decision_table_witness :
    classify "in_progress" "" = Bucket.inProgress ∧
    classify "completed" "cancelled" = Bucket.failure ∧
    classify "completed" "action_required" = Bucket.inProgress ∧
    classify "completed" "some_future_conclusion" = Bucket.success :=
  ⟨(classify_decision_table "in_progress" "").1 (by decide),
   ((classify_decision_table "completed" "cancelled").2 rfl).1 (Or.inr (Or.inl rfl)),
   ((classify_decision_table "completed" "action_required").2 rfl).2.1 rfl,
   ((classify_decision_table "completed" "some_future_conclusion").2 rfl).2.2
     (by decide) (by decide) (by decide) (by decide) (by decide)⟩

/-- C2: classification is a total, disjoint partition — in both
variants the three buckets are exactly the records filtered by their
classified bucket (so every record lands in exactly one bucket), and
the bucket sizes sum to the input length. -/
theorem classification_total_partition (checkRuns : List CheckRun) :
    V1.classifyAll checkRuns =
      ((bucketOf Bucket.success checkRuns).map V1.toCheck,
       (bucketOf Bucket.failure checkRuns).map V1.toCheck,
       (bucketOf Bucket.inProgress checkRuns).map V1.toCheck) ∧
    V2.classifyAll checkRuns =
      ((bucketOf Bucket.success checkRuns).map CheckRun.name,
       (bucketOf Bucket.failure checkRuns).map CheckRun.name,
       (bucketOf Bucket.inProgress checkRuns).map CheckRun.name) ∧
    (bucketOf Bucket.success checkRuns).length + (bucketOf Bucket.failure checkRuns).length +
      (bucketOf Bucket.inProgress checkRuns).length = checkRuns.length ∧
    (∀ r ∈ checkRuns, ∀ b : Bucket,
      (r ∈ bucketOf b checkRuns ↔ classify r.status r.conclusion = b)) := by
  refine ⟨V1.classifyAll_buckets checkRuns, V2.classifyAll_names checkRuns,
    bucketOf_length_sum checkRuns, fun r hr b => ?_⟩
  simp [bucketOf, List.mem_filter, hr]

theorem classification_total_partition_witness :
    ∀ b : Bucket,
      (⟨"build", "completed", "success", "u"⟩ : CheckRun) ∈
          bucketOf b [⟨"build", "completed", "success", "u"⟩] ↔
        classify "completed" "success" = b :=
  (classification_total_partition [⟨"build", "completed", "success", "u"⟩]).2.2.2
    ⟨"build", "completed", "success", "u"⟩ (by simp)

/-- C3: deriving the overall status/conclusion is a strict priority
order — a non-empty failure bucket yields completed/failure regardless
of the other buckets; otherwise a non-empty in-progress bucket yields
in_progress with no conclusion; otherwise completed/success.  The
derivation always produces exactly one of these three outcomes. -/
theorem deriveOverall_strict_priority {α β : Type} (failure : List α) (inProgress : List β) :
    (failure ≠ [] → deriveOverall failure inProgress = ("completed", "failure") ∧
      conclusionPtr (deriveOverall failure inProgress).2 = some "failure") ∧
    (failure = [] → inProgress ≠ [] →
      deriveOverall failure inProgress = ("in_progress", "") ∧
      conclusionPtr (deriveOverall failure inProgress).2 = none) ∧
    (failure = [] → inProgress = [] →
      deriveOverall failure inProgress = ("completed", "success") ∧
      conclusionPtr (deriveOverall failure inProgress).2 = some "success") ∧
    (deriveOverall failure inProgress = ("completed", "failure") ∨
     deriveOverall failure inProgress = ("in_progress", "") ∨
     deriveOverall failure inProgress = ("completed", "success")) := by
  rcases failure with _ | ⟨a, as⟩ <;> rcases inProgress with _ | ⟨b, bs⟩ <;>
    simp [deriveOverall, conclusionPtr]

theorem deriveOverall_strict_priority_witness :
    deriveOverall [()] ([] : List Unit) = ("completed", "failure") ∧
    conclusionPtr (deriveOverall [()] ([] : List Unit)).2 = some "failure" :=
  (deriveOverall_strict_priority [()] ([] : List Unit)).1 (by decide)

/-- C5: in both variants the rendered title is the comma-joined list of
one fragment per non-empty bucket — count plus "successful", "failed",
"in progress" — in the fixed order success, failure, in-progress, the
counts being the numbers of fetched records classified into each
bucket; empty buckets contribute no fragment. -/
theorem title_comma_joined_counts (checkRuns : List CheckRun) :
    title (V1.classifyAll checkRuns).1 (V1.classifyAll checkRuns).2.1
        (V1.classifyAll checkRuns).2.2 =
      String.intercalate ", "
        ((if (bucketOf Bucket.success checkRuns).length > 0 then
            [toString (bucketOf Bucket.success checkRuns).length ++ " successful"] else []) ++
         (if (bucketOf Bucket.failure checkRuns).length > 0 then
            [toString (bucketOf Bucket.failure checkRuns).length ++ " failed"] else []) ++
         (if (bucketOf Bucket.inProgress checkRuns).length > 0 then
            [toString (bucketOf Bucket.inProgress checkRuns).length ++ " in progress"] else [])) ∧
    title (V2.classifyAll checkRuns).1 (V2.classifyAll checkRuns).2.1
        (V2.classifyAll checkRuns).2.2 =
      title (V1.classifyAll checkRuns).1 (V1.classifyAll checkRuns).2.1
        (V1.classifyAll checkRuns).2.2 := by
  rw [V1.classifyAll_buckets, V2.classifyAll_names]
  simp [title, titleParts]

/-- C4: when the listing call succeeds with zero check runs, both
variants still issue exactly one create-check-run call, publishing
status "completed", conclusion "success", and empty title and summary
strings. -/
theorem empty_fetch_publishes_vacuous_success (event : CheckRunEvent)
    (observedAppName : String) (observedAppID : Int)
    (listResponse : ListCheckRunsResponse) (createResponse : CreateCheckRunResponse)
    (hErr : listResponse.err = none) (hCode : listResponse.statusCode = 200)
    (hEmpty : listResponse.checkRuns = []) :
    (event.app.name = observedAppName → event.conclusion ≠ "" →
      (V1.handleCheckRunEvent event observedAppName listResponse createResponse).calls =
        [ApiCall.listCheckRunsForRef event.owner event.repoName event.headSHA event.app.id,
         ApiCall.createCheckRun event.owner event.repoName
           { name := "Synthetic status for " ++ observedAppName,
             headSHA := event.headSHA,
             status := "completed",
             conclusion := some "success",
             outputTitle := "",
             outputSummary := "" }]) ∧
    (event.app.id = observedAppID → event.conclusion ≠ "" →
      (V2.handleCheckRunEvent event observedAppID listResponse createResponse).calls =
        [ApiCall.listCheckRunsForRef event.owner event.repoName event.headSHA observedAppID,
         ApiCall.createCheckRun event.owner event.repoName
           { name := "Synthetic status",
             headSHA := event.headSHA,
             status := "completed",
             conclusion := some "success",
             outputTitle := "",
             outputSummary := "" }]) := by
  constructor
  · intro hApp hConc
    simp only [V1.handleCheckRunEvent, hApp, hConc, hErr, hCode, hEmpty]
    rcases hCreate : createResponse.err with _ | msg <;>
      simp [hCreate, V1.classifyAll, deriveOverall, conclusionPtr, title, titleParts,
        V1.summary, V1.summaryParts]
    all_goals try split
    all_goals first
      | exact ⟨rfl, rfl⟩
      | rfl
  · intro hApp hConc
    simp only [V2.handleCheckRunEvent, hApp, hConc, hErr, hCode, hEmpty]
    rcases hCreate : createResponse.err with _ | msg <;>
      simp [hCreate, V2.classifyAll, deriveOverall, conclusionPtr, title, titleParts,
        V2.summary, V2.summaryParts]
    all_goals try split
    all_goals first
      | exact ⟨rfl, rfl⟩
      | rfl

theorem empty_fetch_publishes_vacuous_success_witness :
    (V1.handleCheckRunEvent
        ⟨⟨7, "ci-app"⟩, 1, "build", "completed", "success", "abc123", "octo", "repo"⟩
        "ci-app" ⟨none, 200, []⟩ ⟨none, 201⟩).calls =
      [ApiCall.listCheckRunsForRef "octo" "repo" "abc123" 7,
       ApiCall.createCheckRun "octo" "repo"
         { name := "Synthetic status for ci-app",
           headSHA := "abc123",
           status := "completed",
           conclusion := some "success",
           outputTitle := "",
           outputSummary := "" }] :=
  (empty_fetch_publishes_vacuous_success
      ⟨⟨7, "ci-app"⟩, 1, "build", "completed", "success", "abc123", "octo", "repo"⟩
      "ci-app" 7 ⟨none, 200, []⟩ ⟨none, 201⟩ rfl rfl rfl).1 rfl (by decide)

/-- C7: events whose app identity differs from the observed one, or
whose conclusion is empty, are dropped without error and without any
API call, in both variants; conversely any event that reaches the
fetch step passed both checks. -/
theorem filter_skips_irrelevant_events (event : CheckRunEvent)
    (observedAppName : String) (observedAppID : Int)
    (listResponse : ListCheckRunsResponse) (createResponse : CreateCheckRunResponse) :
    ((event.app.name ≠ observedAppName ∨ event.conclusion = "") →
      V1.handleCheckRunEvent event observedAppName listResponse createResponse =
        { result := none, calls := [] }) ∧
    ((V1.handleCheckRunEvent event observedAppName listResponse createResponse).calls ≠ [] →
      event.app.name = observedAppName ∧ event.conclusion ≠ "") ∧
    ((event.app.id ≠ observedAppID ∨ event.conclusion = "") →
      V2.handleCheckRunEvent event observedAppID listResponse createResponse =
        { result := none, calls := [] }) ∧
    ((V2.handleCheckRunEvent event observedAppID listResponse createResponse).calls ≠ [] →
      event.app.id = observedAppID ∧ event.conclusion ≠ "") := by
  refine ⟨fun h => ?_, fun hcalls => ?_, fun h => ?_, fun hcalls => ?_⟩
  · rcases h with h | h
    · simp [V1.handleCheckRunEvent, h]
    · by_cases hn : event.app.name = observedAppName <;> simp [V1.handleCheckRunEvent, hn, h]
  · by_cases hn : event.app.name = observedAppName
    · by_cases hc : event.conclusion = ""
      · exact absurd (by simp [V1.handleCheckRunEvent, hn, hc]) hcalls
      · exact ⟨hn, hc⟩
    · exact absurd (by simp [V1.handleCheckRunEvent, hn]) hcalls
  · rcases h with h | h
    · simp [V2.handleCheckRunEvent, h]
    · by_cases hn : event.app.id = observedAppID <;> simp [V2.handleCheckRunEvent, hn, h]
  · by_cases hn : event.app.id = observedAppID
    · by_cases hc : event.conclusion = ""
      · exact absurd (by simp [V2.handleCheckRunEvent, hn, hc]) hcalls
      · exact ⟨hn, hc⟩
    · exact absurd (by simp [V2.handleCheckRunEvent, hn]) hcalls

theorem filter_skips_irrelevant_events_witness :
    V1.handleCheckRunEvent
        ⟨⟨7, "other-app"⟩, 1, "build", "completed", "success", "abc123", "octo", "repo"⟩
        "ci-app" ⟨none, 200, []⟩ ⟨none, 201⟩ =
      { result := none, calls := [] } :=
  (filter_skips_irrelevant_events
      ⟨⟨7, "other-app"⟩, 1, "build", "completed", "success", "abc123", "octo", "repo"⟩
      "ci-app" 7 ⟨none, 200, []⟩ ⟨none, 201⟩).1 (Or.inl (by decide))

/-- C8: if the listing call fails transport-side or answers with a
status other than 200, the handler returns an error naming the commit
SHA and never issues the create call; if the create call fails
transport-side or answers with a status other than 201, the handler
returns an error.  No call is ever issued twice (no retry). -/
theorem upstream_errors_abort_without_retry (event : CheckRunEvent)
    (observedAppName : String) (observedAppID : Int)
    (listResponse : ListCheckRunsResponse) (createResponse : CreateCheckRunResponse) :
    (event.app.name = observedAppName → event.conclusion ≠ "" →
      (∀ msg, listResponse.err = some msg →
        V1.handleCheckRunEvent event observedAppName listResponse createResponse =
          { result := some ("error listing check runs for commit " ++ event.headSHA ++
              ": " ++ msg),
            calls := [ApiCall.listCheckRunsForRef event.owner event.repoName
              event.headSHA event.app.id] }) ∧
      (listResponse.err = none → listResponse.statusCode ≠ 200 →
        V1.handleCheckRunEvent event observedAppName listResponse createResponse =
          { result := some ("error listing check runs for commit " ++ event.headSHA ++
              ": " ++ toString listResponse.statusCode),
            calls := [ApiCall.listCheckRunsForRef event.owner event.repoName
              event.headSHA event.app.id] }) ∧
      (listResponse.err = none → listResponse.statusCode = 200 →
        (∀ msg, createResponse.err = some msg →
          (V1.handleCheckRunEvent event observedAppName listResponse createResponse).result =
            some ("error creating check run for commit " ++ event.headSHA ++ ": " ++ msg)) ∧
        (createResponse.err = none → createResponse.statusCode ≠ 201 →
          (V1.handleCheckRunEvent event observedAppName listResponse createResponse).result =
            some ("error creating check run for commit " ++ event.headSHA ++ ": " ++
              toString createResponse.statusCode)))) ∧
    (V1.handleCheckRunEvent event observedAppName listResponse createResponse).calls.countP
        ApiCall.isCreate ≤ 1 ∧
    (V1.handleCheckRunEvent event observedAppName listResponse createResponse).calls.countP
        ApiCall.isList ≤ 1 ∧
    (event.app.id = observedAppID → event.conclusion ≠ "" →
      (∀ msg, listResponse.err = some msg →
        V2.handleCheckRunEvent event observedAppID listResponse createResponse =
          { result := some ("error listing check runs for commit " ++ event.headSHA ++
              ": " ++ msg),
            calls := [ApiCall.listCheckRunsForRef event.owner event.repoName
              event.headSHA observedAppID] }) ∧
      (listResponse.err = none → listResponse.statusCode ≠ 200 →
        V2.handleCheckRunEvent event observedAppID listResponse createResponse =
          { result := some ("error listing check runs for commit " ++ event.headSHA ++
              ": " ++ toString listResponse.statusCode),
            calls := [ApiCall.listCheckRunsForRef event.owner event.repoName
              event.headSHA observedAppID] }) ∧
      (listResponse.err = none → listResponse.statusCode = 200 →
        (∀ msg, createResponse.err = some msg →
          (V2.handleCheckRunEvent event observedAppID listResponse createResponse).result =
            some ("error creating check run for commit " ++ event.headSHA ++ ": " ++ msg)) ∧
        (createResponse.err = none → createResponse.statusCode ≠ 201 →
          (V2.handleCheckRunEvent event observedAppID listResponse createResponse).result =
            some ("error creating check run for commit " ++ event.headSHA ++ ": " ++
              toString createResponse.statusCode)))) ∧
    (V2.handleCheckRunEvent event observedAppID listResponse createResponse).calls.countP
        ApiCall.isCreate ≤ 1 ∧
    (V2.handleCheckRunEvent event observedAppID listResponse createResponse).calls.countP
        ApiCall.isList ≤ 1 := by
  refine ⟨fun hApp hConc => ⟨fun msg hmsg => ?_, fun hErr hCode => ?_, fun hErr hCode => ?_⟩,
    ?_, ?_, fun hApp hConc => ⟨fun msg hmsg => ?_, fun hErr hCode => ?_, fun hErr hCode => ?_⟩,
    ?_, ?_⟩
  · simp [V1.handleCheckRunEvent, hApp, hConc, hmsg]
  · simp [V1.handleCheckRunEvent, hApp, hConc, hErr, hCode]
  · refine ⟨fun msg hmsg => ?_, fun hCErr hCCode => ?_⟩ <;>
      simp [V1.handleCheckRunEvent, hApp, hConc, hErr, hCode, *]
  · simp only [V1.handleCheckRunEvent]
    repeat' split
    all_goals simp [List.countP_cons, List.countP_nil, ApiCall.isCreate, ApiCall.isList]
  · simp only [V1.handleCheckRunEvent]
    repeat' split
    all_goals simp [List.countP_cons, List.countP_nil, ApiCall.isCreate, ApiCall.isList]
  · simp [V2.handleCheckRunEvent, hApp, hConc, hmsg]
  · simp [V2.handleCheckRunEvent, hApp, hConc, hErr, hCode]
  · refine ⟨fun msg hmsg => ?_, fun hCErr hCCode => ?_⟩ <;>
      simp [V2.handleCheckRunEvent, hApp, hConc, hErr, hCode, *]
  · simp only [V2.handleCheckRunEvent]
    repeat' split
    all_goals simp [List.countP_cons, List.countP_nil, ApiCall.isCreate, ApiCall.isList]
  · simp only [V2.handleCheckRunEvent]
    repeat' split
    all_goals simp [List.countP_cons, List.countP_nil, ApiCall.isCreate, ApiCall.isList]

theorem upstream_errors_abort_without_retry_witness :
    V1.handleCheckRunEvent
        ⟨⟨7, "ci-app"⟩, 1, "build", "completed", "success", "abc123", "octo", "repo"⟩
        "ci-app" ⟨some "boom", 200, []⟩ ⟨none, 201⟩ =
      { result := some "error listing check runs for commit abc123: boom",
        calls := [ApiCall.listCheckRunsForRef "octo" "repo" "abc123" 7] } :=
  ((upstream_errors_abort_without_retry
      ⟨⟨7, "ci-app"⟩, 1, "build", "completed", "success", "abc123", "octo", "repo"⟩
      "ci-app" 7 ⟨some "boom", 200, []⟩ ⟨none, 201⟩).1 rfl (by decide)).1 "boom" rfl

theorem conclusionPtr_deriveOverall_isSome {α β : Type} (failure : List α) (inProgress : List β) :
    ((conclusionPtr (deriveOverall failure inProgress).2).isSome ↔
      (deriveOverall failure inProgress).1 = "completed") ∧
    ¬((deriveOverall failure inProgress).1 = "in_progress" ∧
      (conclusionPtr (deriveOverall failure inProgress).2).isSome) ∧
    ((deriveOverall failure inProgress).1 = "completed" →
      (conclusionPtr (deriveOverall failure inProgress).2).isSome) := by
  rcases failure with _ | ⟨a, as⟩ <;> rcases inProgress with _ | ⟨b, bs⟩ <;>
    simp [deriveOverall, conclusionPtr]

/-- C10: every create call either variant issues carries a conclusion
exactly when its status is "completed": never status "in_progress"
together with a conclusion, and never status "completed" without one. -/
theorem published_conclusion_iff_completed (event : CheckRunEvent)
    (observedAppName : String) (observedAppID : Int)
    (listResponse : ListCheckRunsResponse) (createResponse : CreateCheckRunResponse) :
    (∀ owner repoName opts,
      ApiCall.createCheckRun owner repoName opts ∈
        (V1.handleCheckRunEvent event observedAppName listResponse createResponse).calls →
      ((opts.conclusion.isSome ↔ opts.status = "completed") ∧
        ¬(opts.status = "in_progress" ∧ opts.conclusion.isSome) ∧
        (opts.status = "completed" → opts.conclusion.isSome))) ∧
    (∀ owner repoName opts,
      ApiCall.createCheckRun owner repoName opts ∈
        (V2.handleCheckRunEvent event observedAppID listResponse createResponse).calls →
      ((opts.conclusion.isSome ↔ opts.status = "completed") ∧
        ¬(opts.status = "in_progress" ∧ opts.conclusion.isSome) ∧
        (opts.status = "completed" → opts.conclusion.isSome))) := by
  constructor
  · intro owner repoName opts hmem
    simp only [V1.handleCheckRunEvent] at hmem
    repeat' split at hmem
    all_goals simp at hmem
    all_goals obtain ⟨-, -, hopts⟩ := hmem
    all_goals subst hopts
    all_goals dsimp only
    all_goals exact conclusionPtr_deriveOverall_isSome _ _
  · intro owner repoName opts hmem
    simp only [V2.handleCheckRunEvent] at hmem
    repeat' split at hmem
    all_goals simp at hmem
    all_goals obtain ⟨-, -, hopts⟩ := hmem
    all_goals subst hopts
    all_goals dsimp only
    all_goals exact conclusionPtr_deriveOverall_isSome _ _

theorem published_conclusion_iff_completed_witness :
    ((some "success" : Option String).isSome ↔ ("completed" : String) = "completed") ∧
    ¬(("completed" : String) = "in_progress" ∧ (some "success" : Option String).isSome) ∧
    (("completed" : String) = "completed" → (some "success" : Option String).isSome) :=
  (published_conclusion_iff_completed
      ⟨⟨7, "ci-app"⟩, 1, "build", "completed", "success", "abc123", "octo", "repo"⟩
      "ci-app" 7 ⟨none, 200, []⟩ ⟨none, 201⟩).1 "octo" "repo"
    { name := "Synthetic status for ci-app",
      headSHA := "abc123",
      status := "completed",
      conclusion := some "success",
      outputTitle := "",
      outputSummary := "" } (by decide)

/-- C9: rendering is deterministic — the title and summary of a fixed
classification are single byte-strings, so two renderings coincide —
and each bucket lists the fetched records in ingestion order: in both
variants bucket `b` is exactly the fetched list filtered to the records
classified into `b`, in the original order. -/
theorem rendering_deterministic_ingestion_order (checkRuns : List CheckRun) :
    (V1.summary (V1.classifyAll checkRuns).1 (V1.classifyAll checkRuns).2.1
        (V1.classifyAll checkRuns).2.2 =
      V1.summary (V1.classifyAll checkRuns).1 (V1.classifyAll checkRuns).2.1
        (V1.classifyAll checkRuns).2.2) ∧
    (V2.summary (V2.classifyAll checkRuns).1 (V2.classifyAll checkRuns).2.1
        (V2.classifyAll checkRuns).2.2 =
      V2.summary (V2.classifyAll checkRuns).1 (V2.classifyAll checkRuns).2.1
        (V2.classifyAll checkRuns).2.2) ∧
    (title (V1.classifyAll checkRuns).1 (V1.classifyAll checkRuns).2.1
        (V1.classifyAll checkRuns).2.2 =
      title (V2.classifyAll checkRuns).1 (V2.classifyAll checkRuns).2.1
        (V2.classifyAll checkRuns).2.2) ∧
    (∀ b : Bucket, bucketOf b checkRuns = checkRuns.filter
      (fun r => decide (classify r.status r.conclusion = b))) ∧
    V1.classifyAll checkRuns =
      ((bucketOf Bucket.success checkRuns).map V1.toCheck,
       (bucketOf Bucket.failure checkRuns).map V1.toCheck,
       (bucketOf Bucket.inProgress checkRuns).map V1.toCheck) ∧
    V2.classifyAll checkRuns =
      ((bucketOf Bucket.success checkRuns).map CheckRun.name,
       (bucketOf Bucket.failure checkRuns).map CheckRun.name,
       (bucketOf Bucket.inProgress checkRuns).map CheckRun.name) := by
  refine ⟨rfl, rfl, ?_, fun b => rfl, V1.classifyAll_buckets checkRuns, V2.classifyAll_names checkRuns⟩
  rw [V1.classifyAll_buckets, V2.classifyAll_names]
  simp [title, titleParts]

/-- C6 counterexample: one fetched record with status "queued" and a
details URL.  The in-progress bucket is non-empty, yet the first
variant's section header is "## Checks in progress:" — not of the form
"## <label> checks:" (the summary contains no " checks:" at all) — and
the second variant's bullet never mentions the record's details URL
even though one is available. -/
theorem summary_sections_counterexample :
    (V1.classifyAll [⟨"build", "queued", "", "http://e/d"⟩]).2.2 ≠ [] ∧
    V1.summary (V1.classifyAll [⟨"build", "queued", "", "http://e/d"⟩]).1
        (V1.classifyAll [⟨"build", "queued", "", "http://e/d"⟩]).2.1
        (V1.classifyAll [⟨"build", "queued", "", "http://e/d"⟩]).2.2 =
      "## Checks in progress:\n- [build](http://e/d);\n" ∧
    ¬ (" checks:".toList <:+:
        (V1.summary (V1.classifyAll [⟨"build", "queued", "", "http://e/d"⟩]).1
          (V1.classifyAll [⟨"build", "queued", "", "http://e/d"⟩]).2.1
          (V1.classifyAll [⟨"build", "queued", "", "http://e/d"⟩]).2.2).toList) ∧
    V2.summary (V2.classifyAll [⟨"build", "queued", "", "http://e/d"⟩]).1
        (V2.classifyAll [⟨"build", "queued", "", "http://e/d"⟩]).2.1
        (V2.classifyAll [⟨"build", "queued", "", "http://e/d"⟩]).2.2 =
      "## Checks in progress:\n- build" ∧
    ¬ ("http://e/d".toList <:+:
        (V2.summary (V2.classifyAll [⟨"build", "queued", "", "http://e/d"⟩]).1
          (V2.classifyAll [⟨"build", "queued", "", "http://e/d"⟩]).2.1
          (V2.classifyAll [⟨"build", "queued", "", "http://e/d"⟩]).2.2).toList) := by
  refine ⟨by decide, rfl, by decide, rfl, by decide⟩

/-- C6 (amended): for each non-empty bucket in the order success,
failure, in-progress, the summary emits the fixed section header
("## Successful checks:", "## Failed checks:", "## Checks in
progress:") followed by one bullet line per record of that bucket in
ingestion order — "- [<name>](<details URL>);" in the link-rendering
variant (the link markup is emitted even when the URL is empty), plain
"- <name>" in the name-only variant — with parts joined by newlines so
sections are separated by a blank line (the name-only variant omits the
blank after its last section); empty buckets contribute nothing. -/
theorem summary_sections_amended (checkRuns : List CheckRun) :
    V1.summary (V1.classifyAll checkRuns).1 (V1.classifyAll checkRuns).2.1
        (V1.classifyAll checkRuns).2.2 =
      String.intercalate "\n"
        ((if bucketOf Bucket.success checkRuns = [] then [] else
            "## Successful checks:" ::
              ((bucketOf Bucket.success checkRuns).map
                  (fun r => "- [" ++ r.name ++ "](" ++ r.detailsURL ++ ");") ++ [""])) ++
         (if bucketOf Bucket.failure checkRuns = [] then [] else
            "## Failed checks:" ::
              ((bucketOf Bucket.failure checkRuns).map
                  (fun r => "- [" ++ r.name ++ "](" ++ r.detailsURL ++ ");") ++ [""])) ++
         (if bucketOf Bucket.inProgress checkRuns = [] then [] else
            "## Checks in progress:" ::
              ((bucketOf Bucket.inProgress checkRuns).map
                  (fun r => "- [" ++ r.name ++ "](" ++ r.detailsURL ++ ");") ++ [""]))) ∧
    V2.summary (V2.classifyAll checkRuns).1 (V2.classifyAll checkRuns).2.1
        (V2.classifyAll checkRuns).2.2 =
      String.intercalate "\n"
        ((if bucketOf Bucket.success checkRuns = [] then [] else
            "## Successful checks:" ::
              ((bucketOf Bucket.success checkRuns).map (fun r => "- " ++ r.name) ++ [""])) ++
         (if bucketOf Bucket.failure checkRuns = [] then [] else
            "## Failed checks:" ::
              ((bucketOf Bucket.failure checkRuns).map (fun r => "- " ++ r.name) ++ [""])) ++
         (if bucketOf Bucket.inProgress checkRuns = [] then [] else
            "## Checks in progress:" ::
              (bucketOf Bucket.inProgress checkRuns).map (fun r => "- " ++ r.name))) := by
  rw [V1.classifyAll_buckets, V2.classifyAll_names]
  constructor
  · simp [V1.summary, V1.summaryParts, V1.appendChecks, V1.toCheck, List.map_map,
      Function.comp_def, ite_not, List.length_pos]
  · simp [V2.summary, V2.summaryParts, List.map_map, Function.comp_def, ite_not,
      List.length_pos]

end Checksummarizer
